import Mathlib

/-!
Shallow embedding of the mission lifecycle backend (`src/server.js`).

The server keeps per-user profiles (ship status and at most one active
mission), a read-only mission catalog, and a per-user append-only journey
log, all in an external store.  The three transition endpoints
(`POST /api/missions/start`, `/cancel`, `/complete`) each run a
read-check-write transaction; business failures are thrown as `Error`
messages, caught by the route handler, classified as client or server
faults by substring matching on the message, and returned as
`{ message }` with status 400 or 500.

Timestamps (`FieldValue.serverTimestamp()`) are assigned by the store at
commit time; we model the store's commit clock as a `now : Nat` field of
the state, resolved into both the active mission's `startDate` and the
journey event's `eventDate` when a transaction commits.
-/

/-- Ship status stored on the user profile (`userData.shipStatus`).
`crewCurrent` is `none` when the field is absent
(`typeof userData.shipStatus.crewCurrent === 'undefined'`). -/
structure ShipStatus where
  crewCurrent : Option Nat
  deriving Repr, DecidableEq

/-- A mission catalog document (`missionDoc.data()`): `name`, `crew`
(the crew requirement, `none` when `typeof missionData.crew === 'undefined'`),
and `durationSeconds`. -/
structure MissionData where
  name : String
  crew : Option Nat
  durationSeconds : Nat
  deriving Repr, DecidableEq

/-- The `activeMission` object written to the user profile by a successful
start (`newActiveMission` in `server.js`).  `startDate` is `none` while it
is still the pre-commit server-timestamp sentinel and `some t` once the
store has resolved it at commit time. -/
structure ActiveMission where
  missionId : String
  missionName : String
  startDate : Option Nat
  durationSeconds : Nat
  deriving Repr, DecidableEq

/-- A journey log document (`journeyEvents` subcollection). -/
structure JourneyEvent where
  missionId : String
  missionName : String
  status : String
  eventDate : Nat
  deriving Repr, DecidableEq

/-- A user profile document (`userDoc.data()`): the single active-mission
slot and the ship status, either possibly absent. -/
structure UserData where
  activeMission : Option ActiveMission
  shipStatus : Option ShipStatus
  deriving Repr, DecidableEq

/-- The store state visible to the server: user profiles and mission
catalog keyed by document id, the per-user journey log in insertion
order, and `now`, the timestamp the store assigns at the next commit. -/
structure ServerState where
  users : String → Option UserData
  missions : String → Option MissionData
  journey : String → List JourneyEvent
  now : Nat

/-- Write back one user profile document (`transaction.update(userDocRef, ...)`). -/
def ServerState.setUser (st : ServerState) (userId : String) (d : UserData) : ServerState :=
  { st with users := fun x => if x = userId then some d else st.users x }

/-- Append one journey event for a user
(`transaction.set(journeyEventsRef.doc(), ...)` on an auto-id document). -/
def ServerState.appendEvent (st : ServerState) (userId : String) (e : JourneyEvent) :
    ServerState :=
  { st with journey := fun x => if x = userId then st.journey x ++ [e] else st.journey x }

/-- An HTTP response: status code, the `message` field of the JSON body,
and the `activeMission` field (present only on a successful start). -/
structure ApiResponse where
  status : Nat
  message : String
  activeMission : Option ActiveMission
  deriving Repr, DecidableEq

/-- `p.isPrefixOf l` over char lists, at some offset: JavaScript
`String.prototype.includes`, used by the catch blocks to classify errors. -/
def containsSub (l p : List Char) : Bool :=
  (List.range (l.length + 1)).any fun i => p.isPrefixOf (l.drop i)

/-- JavaScript `msg.includes(pat)` on strings. -/
def strContains (msg pat : String) : Bool :=
  containsSub msg.data pat.data

/-- The `Insufficient crew. Required: ..., Available: ...` template string
thrown at `server.js:203`. -/
def insufficientCrewMsg (required available : Nat) : String :=
  "Insufficient crew. Required: " ++ toString required ++ ", Available: " ++ toString available

/-- Message thrown at `server.js:193`. -/
def incompleteShipMsg : String := "Ship status data is incomplete for user."

/-- Message thrown at `server.js:198`. -/
def incompleteMissionMsg : String := "Mission data is incomplete (missing crew requirement)."

/-- Message thrown at `server.js:187`. -/
def alreadyActiveMsg : String := "User already has an active mission."

/-- The crew count the start transaction reads: `none` when `shipStatus`
is absent or has no `crewCurrent` field (`server.js:191`). -/
def shipCrew (ship : Option ShipStatus) : Option Nat :=
  match ship with
  | none => none
  | some s => s.crewCurrent

/-- The eligibility check inlined in the start transaction
(`server.js:191-204`): incomplete ship data, then incomplete mission
data, then the crew comparison. -/
def canStart (ship : Option ShipStatus) (mission : MissionData) : Except String Unit :=
  match shipCrew ship with
  | none => .error incompleteShipMsg
  | some crewCurrent =>
    match mission.crew with
    | none => .error incompleteMissionMsg
    | some crew =>
      if crewCurrent < crew then .error (insufficientCrewMsg crew crewCurrent)
      else .ok ()

/-- The transaction body of `POST /api/missions/start`
(`server.js:172-234`): read user and mission docs, check existence, the
active-mission slot, eligibility; then write the new `activeMission`
(server timestamp resolved at commit) and append the `started` event. -/
def startTransaction (st : ServerState) (userId missionId : String) :
    Except String ServerState :=
  match st.users userId with
  | none => .error "User profile not found in Firestore."
  | some userData =>
    match st.missions missionId with
    | none => .error "Mission details not found in Firestore."
    | some missionData =>
      if userData.activeMission.isSome then .error alreadyActiveMsg
      else
        match canStart userData.shipStatus missionData with
        | .error e => .error e
        | .ok _ =>
          let newActiveMission : ActiveMission :=
            { missionId := missionId
              missionName := missionData.name
              startDate := some st.now
              durationSeconds := missionData.durationSeconds }
          let st1 := st.setUser userId { userData with activeMission := some newActiveMission }
          .ok (st1.appendEvent userId
            { missionId := missionId
              missionName := missionData.name
              status := "started"
              eventDate := st.now })

/-- The substring classification in the start route's catch block
(`server.js:252-256`). -/
def startIsClientError (msg : String) : Bool :=
  strContains msg "User already" || strContains msg "Insufficient crew" ||
    strContains msg "not found" || strContains msg "required" ||
    strContains msg "incomplete"

/-- The start route's catch block (`server.js:250-260`): status by
substring classification, body message `error.message || generic`. -/
def startCatch (msg : String) : Nat × String :=
  (if startIsClientError msg then 400 else 500,
   if msg = "" then "Server error starting mission." else msg)

/-- `POST /api/missions/start` (`server.js:156-261`): require a truthy
`missionId`, run the transaction, and on success re-read the user doc to
return the committed `activeMission` with its resolved timestamp. -/
def startMission (st : ServerState) (userId : String) (missionIdParam : Option String) :
    ServerState × ApiResponse :=
  match missionIdParam with
  | none => (st, ⟨400, "Mission ID is required.", none⟩)
  | some missionId =>
    if missionId = "" then (st, ⟨400, "Mission ID is required.", none⟩)
    else
      match startTransaction st userId missionId with
      | .error msg => (st, ⟨(startCatch msg).1, (startCatch msg).2, none⟩)
      | .ok st2 =>
        let finalActiveMission := (st2.users userId).bind (fun d => d.activeMission)
        (st2, ⟨200, "Mission started successfully", finalActiveMission⟩)

/-- The transaction body of `POST /api/missions/cancel`
(`server.js:273-292`): require the user doc and an active mission, clear
the slot, append the `canceled` event with the stored mission's id and
name; returns the canceled mission for the confirmation message. -/
def cancelTransaction (st : ServerState) (userId : String) :
    Except String (ServerState × ActiveMission) :=
  match st.users userId with
  | none => .error "User profile not found."
  | some userData =>
    match userData.activeMission with
    | none => .error "No active mission to cancel."
    | some am =>
      let st1 := st.setUser userId { userData with activeMission := none }
      .ok (st1.appendEvent userId
            { missionId := am.missionId
              missionName := am.missionName
              status := "canceled"
              eventDate := st.now }, am)

/-- The substring classification in the cancel route's catch block
(`server.js:299`). -/
def cancelIsClientError (msg : String) : Bool :=
  strContains msg "No active mission" || strContains msg "not found"

/-- The cancel route's catch block (`server.js:297-301`). -/
def cancelCatch (msg : String) : Nat × String :=
  (if cancelIsClientError msg then 400 else 500,
   if msg = "" then "Server error canceling mission." else msg)

/-- `POST /api/missions/cancel` (`server.js:264-302`). -/
def cancelMission (st : ServerState) (userId : String) : ServerState × ApiResponse :=
  match cancelTransaction st userId with
  | .error msg => (st, ⟨(cancelCatch msg).1, (cancelCatch msg).2, none⟩)
  | .ok (st2, am) =>
    (st2, ⟨200, "Mission \"" ++ am.missionName ++ "\" canceled successfully.", none⟩)

/-- Message thrown at `server.js:325`. -/
def noActiveToCompleteMsg : String :=
  "No active mission found to complete. It might have been canceled or already completed."

/-- Message thrown at `server.js:329`. -/
def mismatchMsg : String :=
  "The mission to complete does not match the currently active mission in the database."

/-- The transaction body of `POST /api/missions/complete`
(`server.js:318-341`): require the user doc and an active mission, check
only the supplied `missionId` against the stored one, clear the slot, and
append the `completed` event built from the caller-supplied id and name. -/
def completeTransaction (st : ServerState) (userId missionId missionName : String) :
    Except String ServerState :=
  match st.users userId with
  | none => .error "User profile not found."
  | some userData =>
    match userData.activeMission with
    | none => .error noActiveToCompleteMsg
    | some am =>
      if am.missionId = missionId then
        let st1 := st.setUser userId { userData with activeMission := none }
        .ok (st1.appendEvent userId
              { missionId := missionId
                missionName := missionName
                status := "completed"
                eventDate := st.now })
      else .error mismatchMsg

/-- The substring classification in the complete route's catch block
(`server.js:348`). -/
def completeIsClientError (msg : String) : Bool :=
  strContains msg "required" || strContains msg "not found" ||
    strContains msg "does not match" ||
    strContains msg "No active mission found to complete"

/-- The complete route's catch block (`server.js:346-350`). -/
def completeCatch (msg : String) : Nat × String :=
  (if completeIsClientError msg then 400 else 500,
   if msg = "" then "Server error completing mission." else msg)

/-- `POST /api/missions/complete` (`server.js:305-351`): require truthy
`missionId` and `missionName`, run the transaction, confirm with the
caller-supplied name. -/
def completeMission (st : ServerState) (userId : String)
    (missionIdParam missionNameParam : Option String) : ServerState × ApiResponse :=
  match missionIdParam, missionNameParam with
  | some missionId, some missionName =>
    if missionId = "" ∨ missionName = "" then
      (st, ⟨400, "Mission ID and Mission Name are required.", none⟩)
    else
      match completeTransaction st userId missionId missionName with
      | .error msg => (st, ⟨(completeCatch msg).1, (completeCatch msg).2, none⟩)
      | .ok st2 =>
        (st2, ⟨200, "Mission \"" ++ missionName ++ "\" completed successfully.", none⟩)
  | _, _ => (st, ⟨400, "Mission ID and Mission Name are required.", none⟩)

/-- Modelled from the spec: the Journey Log Store's query contract behind
`journeyEventsRef.orderBy('eventDate', 'desc')` at `server.js:124` — the
store (an external collaborator; only the query call is in this
repository) returns events in descending `eventDate` order with ties
broken by insertion order.  An event is paired with its insertion index
and sorted by descending date, then ascending index. -/
def journeyKeyLe (a b : Nat × JourneyEvent) : Prop :=
  b.2.eventDate < a.2.eventDate ∨ (a.2.eventDate = b.2.eventDate ∧ a.1 ≤ b.1)

instance : DecidableRel journeyKeyLe := fun a b => by
  unfold journeyKeyLe; exact inferInstance

instance : IsTotal (Nat × JourneyEvent) journeyKeyLe :=
  ⟨by intro a b; unfold journeyKeyLe; omega⟩

instance : IsTrans (Nat × JourneyEvent) journeyKeyLe :=
  ⟨by intro a b c hab hbc; unfold journeyKeyLe at *; omega⟩

/-- The store query issued by `GET /api/user/journey-log`
(`server.js:123-125`): the user's events, tagged with insertion index,
in the order the store returns them. -/
def journeyLogQuery (st : ServerState) (userId : String) : List (Nat × JourneyEvent) :=
  List.insertionSort journeyKeyLe (st.journey userId).enum

/-- `GET /api/user/journey-log` (`server.js:118-153`): the handler pushes
the query results in order, so the response body lists the events exactly
in store-query order. -/
def journeyLogResponse (st : ServerState) (userId : String) : List JourneyEvent :=
  (journeyLogQuery st userId).map Prod.snd

theorem isPrefixOf_append_self (p t : List Char) : List.isPrefixOf p (p ++ t) = true := by
  induction p with
  | nil => simp [List.isPrefixOf]
  | cons a as ih => simp [List.isPrefixOf, ih]

theorem containsSub_self_append (p t : List Char) : containsSub (p ++ t) p = true := by
  unfold containsSub
  rw [List.any_eq_true]
  refine ⟨0, List.mem_range.mpr (Nat.succ_pos _), ?_⟩
  rw [List.drop_zero]
  exact isPrefixOf_append_self p t

theorem insufficientCrew_data (r c : Nat) :
    (insufficientCrewMsg r c).data =
      "Insufficient crew".data ++
        (". Required: " ++ toString r ++ ", Available: " ++ toString c).data := by
  have hlit : ("Insufficient crew. Required: " : String).data =
      "Insufficient crew".data ++ ". Required: ".data := by decide
  simp [insufficientCrewMsg, String.data_append, hlit, List.append_assoc]

theorem startIsClientError_insufficient (r c : Nat) :
    startIsClientError (insufficientCrewMsg r c) = true := by
  have h2 : strContains (insufficientCrewMsg r c) "Insufficient crew" = true := by
    unfold strContains
    rw [insufficientCrew_data]
    exact containsSub_self_append _ _
  unfold startIsClientError
  rw [h2]
  simp

theorem insufficientCrewMsg_ne_empty (r c : Nat) : insufficientCrewMsg r c ≠ "" := by
  intro h
  have hdata : (insufficientCrewMsg r c).data = [] := by rw [h]
  rw [insufficientCrew_data] at hdata
  exact absurd (List.append_eq_nil.mp hdata).1 (by decide)

theorem startCatch_insufficient (r c : Nat) :
    startCatch (insufficientCrewMsg r c) = (400, insufficientCrewMsg r c) := by
  unfold startCatch
  rw [startIsClientError_insufficient, if_neg (insufficientCrewMsg_ne_empty r c)]
  simp

/-- Shared helper: with the user and mission documents present and the
active-mission slot occupied, the start route returns the already-active
client error and the state it was given. -/
theorem startMission_activeSlot (st : ServerState) (userId missionId : String)
    (d : UserData) (m : MissionData) (am : ActiveMission)
    (hu : st.users userId = some d) (hm : st.missions missionId = some m)
    (ha : d.activeMission = some am) (hid : missionId ≠ "") :
    startMission st userId (some missionId) = (st, ⟨400, alreadyActiveMsg, none⟩) := by
  have hc : startCatch alreadyActiveMsg = (400, alreadyActiveMsg) := by decide
  simp only [startMission]
  rw [if_neg hid]
  simp only [startTransaction, hu, hm, ha, Option.isSome_some, if_true, hc]

/-- Fixture: a ship with five crew aboard. -/
def fixShip : ShipStatus := ⟨some 5⟩

/-- Fixture: a ship with two crew aboard. -/
def fixShipLow : ShipStatus := ⟨some 2⟩

/-- Fixture: a catalog mission requiring three crew. -/
def fixMission : MissionData := ⟨"Alpha Survey", some 3, 3600⟩

/-- Fixture: an active mission occupying the slot. -/
def fixActive : ActiveMission := ⟨"m1", "Alpha Survey", some 10, 3600⟩

/-- Fixture: a user with an active mission. -/
def fixUserActive : UserData := ⟨some fixActive, some fixShip⟩

/-- Fixture: an idle user. -/
def fixUserIdle : UserData := ⟨none, some fixShip⟩

/-- Fixture: a user with an active mission and no ship status at all. -/
def fixUserActiveNoShip : UserData := ⟨some fixActive, none⟩

/-- Fixture: a user with an active mission and too little crew. -/
def fixUserActiveLowCrew : UserData := ⟨some fixActive, some fixShipLow⟩

/-- Fixture: an idle user with too little crew. -/
def fixUserIdleLowCrew : UserData := ⟨none, some fixShipLow⟩

/-- Fixture: a one-user, one-mission store with an empty journey log. -/
def mkState (u : UserData) (m : MissionData) : ServerState :=
  { users := fun x => if x = "user1" then some u else none
    missions := fun x => if x = "m1" then some m else none
    journey := fun _ => []
    now := 42 }

/-- C1: a start call for a user whose profile already holds an active
mission (user and requested mission documents present, mission id
supplied) fails with the AlreadyActive error as a 400 response, and the
returned state is exactly the input state: the active-mission slot is not
overwritten and no journey event is appended by the failing call. -/
theorem C1_start_alreadyActive (st : ServerState) (userId missionId : String)
    (d : UserData) (am : ActiveMission) (m : MissionData)
    (hu : st.users userId = some d) (ha : d.activeMission = some am)
    (hm : st.missions missionId = some m) (hid : missionId ≠ "") :
    startMission st userId (some missionId) = (st, ⟨400, alreadyActiveMsg, none⟩) :=
  startMission_activeSlot st userId missionId d m am hu hm ha hid

theorem C1_start_alreadyActive_witness :
    startMission (mkState fixUserActive fixMission) "user1" (some "m1") =
      (mkState fixUserActive fixMission, ⟨400, alreadyActiveMsg, none⟩) :=
  C1_start_alreadyActive (mkState fixUserActive fixMission) "user1" "m1"
    fixUserActive fixActive fixMission (by simp [mkState]) rfl (by simp [mkState])
    (by decide)

/-- C10: the already-active check in start is evaluated before the
ship-data, mission-data and crew-sufficiency checks: with the user and
mission documents present and the slot occupied, start fails with
AlreadyActive both when the profile has no ship status at all and when
the crew aboard is insufficient for the requested mission. -/
theorem C10_alreadyActive_precedes_crew_checks (st : ServerState)
    (userId missionId : String) (d : UserData) (am : ActiveMission) (m : MissionData)
    (hu : st.users userId = some d) (ha : d.activeMission = some am)
    (hm : st.missions missionId = some m) (hid : missionId ≠ "") :
    (d.shipStatus = none →
      startMission st userId (some missionId) = (st, ⟨400, alreadyActiveMsg, none⟩)) ∧
    (∀ c r, shipCrew d.shipStatus = some c → m.crew = some r → c < r →
      startMission st userId (some missionId) = (st, ⟨400, alreadyActiveMsg, none⟩)) :=
  ⟨fun _ => startMission_activeSlot st userId missionId d m am hu hm ha hid,
   fun _ _ _ _ _ => startMission_activeSlot st userId missionId d m am hu hm ha hid⟩

theorem C10_alreadyActive_precedes_crew_checks_witness :
    startMission (mkState fixUserActiveNoShip fixMission) "user1" (some "m1") =
      (mkState fixUserActiveNoShip fixMission, ⟨400, alreadyActiveMsg, none⟩) ∧
    startMission (mkState fixUserActiveLowCrew fixMission) "user1" (some "m1") =
      (mkState fixUserActiveLowCrew fixMission, ⟨400, alreadyActiveMsg, none⟩) :=
  ⟨(C10_alreadyActive_precedes_crew_checks (mkState fixUserActiveNoShip fixMission)
      "user1" "m1" fixUserActiveNoShip fixActive fixMission
      (by simp [mkState]) rfl (by simp [mkState]) (by decide)).1 rfl,
   (C10_alreadyActive_precedes_crew_checks (mkState fixUserActiveLowCrew fixMission)
      "user1" "m1" fixUserActiveLowCrew fixActive fixMission
      (by simp [mkState]) rfl (by simp [mkState]) (by decide)).2 2 3 rfl rfl (by decide)⟩

/-- C2: for a user document with no active mission, cancel fails with its
NoActiveMission error and complete (parameters supplied) fails with its
NoActiveMission error; both are 400 responses and both return the state
exactly as given — the profile is unchanged and zero journey-log entries
are appended. -/
theorem C2_idle_cancel_complete (st : ServerState) (userId missionId missionName : String)
    (d : UserData) (hu : st.users userId = some d) (ha : d.activeMission = none)
    (hid : missionId ≠ "") (hnm : missionName ≠ "") :
    cancelMission st userId = (st, ⟨400, "No active mission to cancel.", none⟩) ∧
    completeMission st userId (some missionId) (some missionName) =
      (st, ⟨400, noActiveToCompleteMsg, none⟩) := by
  constructor
  · have hc : cancelCatch "No active mission to cancel." =
        (400, "No active mission to cancel.") := by decide
    simp only [cancelMission, cancelTransaction, hu, ha, hc]
  · have hc : completeCatch noActiveToCompleteMsg = (400, noActiveToCompleteMsg) := by
      decide
    simp only [completeMission]
    rw [if_neg (not_or.mpr ⟨hid, hnm⟩)]
    simp only [completeTransaction, hu, ha, hc]

theorem C2_idle_cancel_complete_witness :
    cancelMission (mkState fixUserIdle fixMission) "user1" =
      (mkState fixUserIdle fixMission, ⟨400, "No active mission to cancel.", none⟩) ∧
    completeMission (mkState fixUserIdle fixMission) "user1" (some "m1")
        (some "Alpha Survey") =
      (mkState fixUserIdle fixMission, ⟨400, noActiveToCompleteMsg, none⟩) :=
  C2_idle_cancel_complete (mkState fixUserIdle fixMission) "user1" "m1" "Alpha Survey"
    fixUserIdle (by simp [mkState]) rfl (by decide) (by decide)

/-- C3: a complete call whose supplied mission id differs from the stored
active mission's id (parameters supplied, user present) fails with the
MissionMismatch error as a 400 response and returns the state unchanged:
the stored active mission survives and no journey event is appended. -/
theorem C3_complete_mismatch (st : ServerState) (userId missionId missionName : String)
    (d : UserData) (am : ActiveMission)
    (hu : st.users userId = some d) (ha : d.activeMission = some am)
    (hne : am.missionId ≠ missionId) (hid : missionId ≠ "") (hnm : missionName ≠ "") :
    completeMission st userId (some missionId) (some missionName) =
      (st, ⟨400, mismatchMsg, none⟩) := by
  have hc : completeCatch mismatchMsg = (400, mismatchMsg) := by decide
  simp only [completeMission]
  rw [if_neg (not_or.mpr ⟨hid, hnm⟩)]
  simp only [completeTransaction, hu, ha]
  rw [if_neg hne]
  simp only [hc]

theorem C3_complete_mismatch_witness :
    completeMission (mkState fixUserActive fixMission) "user1" (some "m2")
        (some "Alpha Survey") =
      (mkState fixUserActive fixMission, ⟨400, mismatchMsg, none⟩) :=
  C3_complete_mismatch (mkState fixUserActive fixMission) "user1" "m2" "Alpha Survey"
    fixUserActive fixActive (by simp [mkState]) rfl (by decide) (by decide) (by decide)

/-- C4: for an idle user and an existing mission (documents present, crew
data on both sides known), when the crew aboard is smaller than the
mission's requirement, start fails with the InsufficientCrew error — a
400 response whose message names the required and available counts — and
returns the state unchanged: no active mission is created and no
journey-log entry is appended. -/
theorem C4_insufficient_crew (st : ServerState) (userId missionId : String)
    (d : UserData) (m : MissionData) (c r : Nat)
    (hu : st.users userId = some d) (ha : d.activeMission = none)
    (hm : st.missions missionId = some m) (hid : missionId ≠ "")
    (hc : shipCrew d.shipStatus = some c) (hr : m.crew = some r) (hlt : c < r) :
    startMission st userId (some missionId) =
      (st, ⟨400, insufficientCrewMsg r c, none⟩) := by
  simp only [startMission]
  rw [if_neg hid]
  simp only [startTransaction, hu, hm, ha, Option.isSome_none, Bool.false_eq_true,
    if_false, canStart, hc, hr]
  rw [if_pos hlt]
  simp only [startCatch_insufficient r c]

theorem C4_insufficient_crew_witness :
    startMission (mkState fixUserIdleLowCrew fixMission) "user1" (some "m1") =
      (mkState fixUserIdleLowCrew fixMission, ⟨400, insufficientCrewMsg 3 2, none⟩) :=
  C4_insufficient_crew (mkState fixUserIdleLowCrew fixMission) "user1" "m1"
    fixUserIdleLowCrew fixMission 2 3 (by simp [mkState]) rfl (by simp [mkState])
    (by decide) rfl rfl (by decide)

/-- Fixture: a ship status document without a crewCurrent field. -/
def fixShipNoCrew : ShipStatus := ⟨none⟩

/-- Fixture: a catalog mission without a crew requirement. -/
def fixMissionNoCrew : MissionData := ⟨"Beta Salvage", none, 1800⟩

/-- C5 counterexample: when the mission's crew requirement is absent but
the ship's crew count is also unknown, the eligibility check reports
incomplete ship data, not incomplete mission data — refuting, at this
input, the claim that it fails with IncompleteMissionData whenever the
crew requirement is absent. -/
theorem C5_counterexample :
    fixMissionNoCrew.crew = none ∧
    canStart (some fixShipNoCrew) fixMissionNoCrew = .error incompleteShipMsg ∧
    incompleteShipMsg ≠ incompleteMissionMsg :=
  ⟨rfl, rfl, by decide⟩

/-- C5 (amended): the eligibility check fails with IncompleteShipData
whenever the ship's crew count is absent or unknown; fails with
IncompleteMissionData whenever the ship data is complete and the
mission's crew requirement is absent; and succeeds in the remaining
cases, where both counts are known and crewCurrent is at least
crewRequired. -/
theorem C5_canStart_cases (ship : Option ShipStatus) (m : MissionData) :
    (shipCrew ship = none → canStart ship m = .error incompleteShipMsg) ∧
    (∀ c, shipCrew ship = some c → m.crew = none →
      canStart ship m = .error incompleteMissionMsg) ∧
    (∀ c r, shipCrew ship = some c → m.crew = some r → r ≤ c →
      canStart ship m = .ok ()) := by
  refine ⟨fun h => ?_, fun c hc hm => ?_, fun c r hc hm hle => ?_⟩
  · simp only [canStart, h]
  · simp only [canStart, hc, hm]
  · simp only [canStart, hc, hm]
    rw [if_neg (Nat.not_lt.mpr hle)]

theorem C5_canStart_cases_witness :
    canStart (some fixShipNoCrew) fixMission = .error incompleteShipMsg ∧
    canStart (some fixShip) fixMissionNoCrew = .error incompleteMissionMsg ∧
    canStart (some fixShip) fixMission = .ok () :=
  ⟨(C5_canStart_cases (some fixShipNoCrew) fixMission).1 rfl,
   (C5_canStart_cases (some fixShip) fixMissionNoCrew).2.1 5 rfl rfl,
   (C5_canStart_cases (some fixShip) fixMission).2.2 5 3 rfl rfl (by decide)⟩

/-- Fixture: a raw storage-layer failure message, as thrown by the
Firestore client library and reaching the route's catch block unchanged. -/
def storageErrMsg : String := "13 INTERNAL: Received RST_STREAM with code 2"

/-- C6 counterexample: a raw storage-layer error reaching the start
route's catch block is classified as a server fault (500), yet the
response carries the raw message verbatim instead of the generic
"Server error starting mission." — internal detail is leaked and a raw
storage-layer error is surfaced to the caller. -/
theorem C6_counterexample :
    (startCatch storageErrMsg).1 = 500 ∧
    (startCatch storageErrMsg).2 = storageErrMsg ∧
    storageErrMsg ≠ "Server error starting mission." := by
  refine ⟨?_, ?_, ?_⟩ <;> decide

/-- Every error the start transaction body can raise. -/
theorem startTransaction_error_messages (st : ServerState) (userId missionId msg : String)
    (h : startTransaction st userId missionId = .error msg) :
    msg = "User profile not found in Firestore." ∨
    msg = "Mission details not found in Firestore." ∨
    msg = alreadyActiveMsg ∨ msg = incompleteShipMsg ∨ msg = incompleteMissionMsg ∨
    ∃ r c, msg = insufficientCrewMsg r c := by
  unfold startTransaction at h
  cases hu : st.users userId with
  | none => simp only [hu] at h; injection h with h2; exact Or.inl h2.symm
  | some d =>
    simp only [hu] at h
    cases hm : st.missions missionId with
    | none => simp only [hm] at h; injection h with h2; exact Or.inr (Or.inl h2.symm)
    | some m =>
      simp only [hm] at h
      by_cases hact : d.activeMission.isSome = true
      · rw [if_pos hact] at h
        injection h with h2
        exact Or.inr (Or.inr (Or.inl h2.symm))
      · rw [if_neg hact] at h
        cases hcs : canStart d.shipStatus m with
        | ok u => rw [hcs] at h; exact absurd h (by simp)
        | error e =>
          rw [hcs] at h
          injection h with h2
          subst h2
          unfold canStart at hcs
          cases hsc : shipCrew d.shipStatus with
          | none =>
            simp only [hsc] at hcs
            injection hcs with h3
            exact Or.inr (Or.inr (Or.inr (Or.inl h3.symm)))
          | some c =>
            simp only [hsc] at hcs
            cases hcr : m.crew with
            | none =>
              simp only [hcr] at hcs
              injection hcs with h3
              exact Or.inr (Or.inr (Or.inr (Or.inr (Or.inl h3.symm))))
            | some r =>
              simp only [hcr] at hcs
              by_cases hlt : c < r
              · rw [if_pos hlt] at hcs
                injection hcs with h3
                exact Or.inr (Or.inr (Or.inr (Or.inr (Or.inr ⟨r, c, h3.symm⟩))))
              · rw [if_neg hlt] at hcs
                exact absurd hcs (by simp)

/-- C6 (amended): error reporting is by substring matching on the thrown
message, not by a typed discriminant: every business-rule failure raised
by a transition's transaction body is returned as a 400 client fault
with its message passed through verbatim, while any error the matcher
does not recognize — storage-layer failures included — is returned as a
500 server fault that still carries the raw message verbatim, the
generic message being used only when the message is empty. -/
theorem C6_error_classification (st : ServerState)
    (userId missionId missionName msg : String) :
    (startTransaction st userId missionId = .error msg → startCatch msg = (400, msg)) ∧
    (cancelTransaction st userId = .error msg → cancelCatch msg = (400, msg)) ∧
    (completeTransaction st userId missionId missionName = .error msg →
      completeCatch msg = (400, msg)) ∧
    (startIsClientError msg = false → msg ≠ "" → startCatch msg = (500, msg)) := by
  refine ⟨fun h => ?_, fun h => ?_, fun h => ?_, fun hf hne => ?_⟩
  · rcases startTransaction_error_messages st userId missionId msg h with
      h1 | h1 | h1 | h1 | h1 | ⟨r, c, h1⟩
    all_goals subst h1
    · decide
    · decide
    · decide
    · decide
    · decide
    · exact startCatch_insufficient r c
  · unfold cancelTransaction at h
    cases hu : st.users userId with
    | none => simp only [hu] at h; injection h with h2; subst h2; decide
    | some d =>
      simp only [hu] at h
      cases ha : d.activeMission with
      | none => simp only [ha] at h; injection h with h2; subst h2; decide
      | some am => rw [ha] at h; exact absurd h (by simp)
  · unfold completeTransaction at h
    cases hu : st.users userId with
    | none => simp only [hu] at h; injection h with h2; subst h2; decide
    | some d =>
      simp only [hu] at h
      cases ha : d.activeMission with
      | none => simp only [ha] at h; injection h with h2; subst h2; decide
      | some am =>
        simp only [ha] at h
        by_cases heq : am.missionId = missionId
        · rw [if_pos heq] at h; exact absurd h (by simp)
        · rw [if_neg heq] at h; injection h with h2; subst h2; decide
  · simp [startCatch, hf, hne]

theorem C6_error_classification_witness :
    startCatch alreadyActiveMsg = (400, alreadyActiveMsg) ∧
    cancelCatch "No active mission to cancel." = (400, "No active mission to cancel.") ∧
    completeCatch mismatchMsg = (400, mismatchMsg) ∧
    startCatch storageErrMsg = (500, storageErrMsg) :=
  ⟨(C6_error_classification (mkState fixUserActive fixMission) "user1" "m1" "X"
      alreadyActiveMsg).1 rfl,
   (C6_error_classification (mkState fixUserIdle fixMission) "user1" "m1" "X"
      "No active mission to cancel.").2.1 rfl,
   (C6_error_classification (mkState fixUserActive fixMission) "user1" "m2" "X"
      mismatchMsg).2.2.1 rfl,
   (C6_error_classification (mkState fixUserIdle fixMission) "user1" "m1" "X"
      storageErrMsg).2.2.2 (by decide) (by decide)⟩

/-- The pre-commit `activeMissionToReturn` object built inside the start
transaction (`server.js:219-224`): it carries no `startDate`, which is
why the handler re-reads the profile after commit instead of returning
this intent. -/
def activeMissionToReturn (missionId : String) (m : MissionData) : ActiveMission :=
  ⟨missionId, m.name, none, m.durationSeconds⟩

/-- Shared helper: the full effect of a successful start — the committed
state and the 200 response built from the post-commit re-read. -/
theorem startMission_success_eq (st : ServerState) (userId missionId : String)
    (d : UserData) (m : MissionData) (c r : Nat)
    (hu : st.users userId = some d) (ha : d.activeMission = none)
    (hm : st.missions missionId = some m) (hid : missionId ≠ "")
    (hc : shipCrew d.shipStatus = some c) (hr : m.crew = some r) (hle : r ≤ c) :
    startMission st userId (some missionId) =
      ((st.setUser userId
          { d with activeMission := some ⟨missionId, m.name, some st.now, m.durationSeconds⟩ }).appendEvent
            userId ⟨missionId, m.name, "started", st.now⟩,
        ⟨200, "Mission started successfully",
          some ⟨missionId, m.name, some st.now, m.durationSeconds⟩⟩) := by
  simp only [startMission]
  rw [if_neg hid]
  simp only [startTransaction, hu, hm, ha, Option.isSome_none, Bool.false_eq_true,
    if_false, canStart, hc, hr]
  rw [if_neg (Nat.not_lt.mpr hle)]
  simp [ServerState.setUser, ServerState.appendEvent]

/-- C7: on a successful start (idle user, existing mission, eligibility
satisfied), the 200 response carries exactly the active mission as
re-read from the store after the transaction committed — it equals the
post-state profile's slot, its startDate is the storage-assigned commit
timestamp, and it is not the pre-commit intent, which lacks that
timestamp. -/
theorem C7_start_returns_committed (st : ServerState) (userId missionId : String)
    (d : UserData) (m : MissionData) (c r : Nat)
    (hu : st.users userId = some d) (ha : d.activeMission = none)
    (hm : st.missions missionId = some m) (hid : missionId ≠ "")
    (hc : shipCrew d.shipStatus = some c) (hr : m.crew = some r) (hle : r ≤ c) :
    (startMission st userId (some missionId)).2.status = 200 ∧
    (startMission st userId (some missionId)).2.activeMission =
      ((startMission st userId (some missionId)).1.users userId).bind
        (fun du => du.activeMission) ∧
    (startMission st userId (some missionId)).2.activeMission =
      some ⟨missionId, m.name, some st.now, m.durationSeconds⟩ ∧
    (startMission st userId (some missionId)).2.activeMission ≠
      some (activeMissionToReturn missionId m) := by
  rw [startMission_success_eq st userId missionId d m c r hu ha hm hid hc hr hle]
  refine ⟨rfl, ?_, rfl, ?_⟩
  · simp [ServerState.setUser, ServerState.appendEvent]
  · simp [activeMissionToReturn]

theorem C7_start_returns_committed_witness :
    (startMission (mkState fixUserIdle fixMission) "user1" (some "m1")).2.status = 200 ∧
    (startMission (mkState fixUserIdle fixMission) "user1" (some "m1")).2.activeMission =
      (((startMission (mkState fixUserIdle fixMission) "user1" (some "m1")).1.users
          "user1").bind (fun du => du.activeMission)) ∧
    (startMission (mkState fixUserIdle fixMission) "user1" (some "m1")).2.activeMission =
      some ⟨"m1", fixMission.name, some (mkState fixUserIdle fixMission).now,
        fixMission.durationSeconds⟩ ∧
    (startMission (mkState fixUserIdle fixMission) "user1" (some "m1")).2.activeMission ≠
      some (activeMissionToReturn "m1" fixMission) :=
  C7_start_returns_committed (mkState fixUserIdle fixMission) "user1" "m1"
    fixUserIdle fixMission 5 3 (by simp [mkState]) rfl (by simp [mkState]) (by decide)
    rfl rfl (by decide)

/-- C8: the journey-log read returns the user's events in descending
eventDate order with ties broken by insertion order: the store query
result is a permutation of the index-tagged stored log, any earlier
result has a strictly later date than a later result or the same date
and a strictly smaller insertion index, and the response body is exactly
those events in query order. -/
theorem C8_journeyLog_order (st : ServerState) (userId : String) :
    (journeyLogQuery st userId).Perm (st.journey userId).enum ∧
    (journeyLogQuery st userId).Pairwise (fun a b =>
      b.2.eventDate < a.2.eventDate ∨ (a.2.eventDate = b.2.eventDate ∧ a.1 < b.1)) ∧
    journeyLogResponse st userId = (journeyLogQuery st userId).map Prod.snd := by
  refine ⟨List.perm_insertionSort _ _, ?_, rfl⟩
  have hsorted : List.Pairwise journeyKeyLe (journeyLogQuery st userId) :=
    List.sorted_insertionSort journeyKeyLe _
  have henum : List.Pairwise (fun a b : Nat × JourneyEvent => a.1 ≠ b.1)
      (st.journey userId).enum :=
    List.pairwise_map.mp (List.nodup_enum_map_fst (st.journey userId))
  have hnd : List.Pairwise (fun a b : Nat × JourneyEvent => a.1 ≠ b.1)
      (journeyLogQuery st userId) :=
    ((List.perm_insertionSort journeyKeyLe _).pairwise_iff
      (fun h => Ne.symm h)).mpr henum
  refine (hsorted.and hnd).imp ?_
  intro a b h
  rcases h with ⟨hle, hne⟩
  unfold journeyKeyLe at hle
  rcases hle with hlt | ⟨heq, hle2⟩
  · exact Or.inl hlt
  · exact Or.inr ⟨heq, Nat.lt_of_le_of_ne hle2 hne⟩

/-- C9: complete validates only the supplied mission id against the
stored slot; the supplied mission name is never compared with the stored
one — for every supplied name, completion succeeds, the appended
completed event carries the caller-supplied name verbatim, the
confirmation message quotes it, and the slot is cleared, regardless of
the stored missionName. -/
theorem C9_complete_uses_supplied_name (st : ServerState) (userId missionName : String)
    (d : UserData) (am : ActiveMission)
    (hu : st.users userId = some d) (ha : d.activeMission = some am)
    (hid : am.missionId ≠ "") (hnm : missionName ≠ "") :
    (completeMission st userId (some am.missionId) (some missionName)).2 =
      ⟨200, "Mission \"" ++ missionName ++ "\" completed successfully.", none⟩ ∧
    (completeMission st userId (some am.missionId) (some missionName)).1.journey userId =
      st.journey userId ++ [⟨am.missionId, missionName, "completed", st.now⟩] ∧
    (completeMission st userId (some am.missionId) (some missionName)).1.users userId =
      some { d with activeMission := none } := by
  have key : completeMission st userId (some am.missionId) (some missionName) =
      ((st.setUser userId { d with activeMission := none }).appendEvent userId
          ⟨am.missionId, missionName, "completed", st.now⟩,
        ⟨200, "Mission \"" ++ missionName ++ "\" completed successfully.", none⟩) := by
    simp only [completeMission]
    rw [if_neg (not_or.mpr ⟨hid, hnm⟩)]
    simp only [completeTransaction, hu, ha, if_true]
  rw [key]
  refine ⟨rfl, ?_, ?_⟩
  · simp [ServerState.appendEvent, ServerState.setUser]
  · simp [ServerState.appendEvent, ServerState.setUser]

theorem C9_complete_uses_supplied_name_witness :
    (completeMission (mkState fixUserActive fixMission) "user1" (some fixActive.missionId)
        (some "Renamed Mission")).2 =
      ⟨200, "Mission \"" ++ "Renamed Mission" ++ "\" completed successfully.", none⟩ ∧
    (completeMission (mkState fixUserActive fixMission) "user1" (some fixActive.missionId)
        (some "Renamed Mission")).1.journey "user1" =
      (mkState fixUserActive fixMission).journey "user1" ++
        [⟨fixActive.missionId, "Renamed Mission", "completed",
          (mkState fixUserActive fixMission).now⟩] ∧
    (completeMission (mkState fixUserActive fixMission) "user1" (some fixActive.missionId)
        (some "Renamed Mission")).1.users "user1" =
      some { fixUserActive with activeMission := none } :=
  C9_complete_uses_supplied_name (mkState fixUserActive fixMission) "user1"
    "Renamed Mission" fixUserActive fixActive (by simp [mkState]) rfl (by decide)
    (by decide)
